import Mathlib

set_option linter.unusedVariables false

/-! Shallow embedding of the pool target operations file (srv_target.c) of the
DAOS server: the per-stream child registry (ds_pool_child), the process-wide
pool cache (ds_pool, a daos_lru_cache), the process-wide handle table
(ds_pool_hdl, a dhash_table), the three RPC handlers
(ds_pool_tgt_connect_handler, ds_pool_tgt_disconnect_handler,
ds_pool_tgt_update_map_handler) and their reply aggregators. External
collaborators (VOS open, path resolution, group service, transport) are
modelled at their interfaces; fallible allocations and collaborator calls are
driven by explicit Boolean oracles. uuid_t values are modelled as Nat, since
the code only ever compares them with uuid_compare and copies them. -/

/-- Identifier standing in for a uuid_t value. -/
abbrev Uuid := Nat

/-- Fragment of the DAOS error space used by this file. The constructor ok
stands for rc == 0; maperr and grouperr stand for whatever nonzero code
pool_map_create and ds_pool_group_create propagate; abterr stands for
dss_abterr2der of a failed ABT_rwlock_create. -/
inductive Rc where
  | ok
  | nomem
  | nonexist
  | exist
  | inval
  | abterr
  | maperr
  | grouperr
  deriving DecidableEq, Repr

/-- Wire reply mapping used identically by the three handlers:
out rc = (rc == 0 ? 0 : 1). -/
def rcToReply (rc : Rc) : Nat :=
  if rc == Rc.ok then 0 else 1

/-- One ds_pool_child record: a per-stream registry entry holding the pool
uuid, the cached pool map version and a reference count. The opaque VOS pool
handle is an external resource and carries no observable state here. -/
structure DsPoolChild where
  spc_uuid : Uuid
  spc_map_version : Nat
  spc_ref : Nat
  deriving DecidableEq, Repr

/-- One ds_pool record: a pool cache entry with uuid, cached map version,
whether a pool map was parsed (sp_map != NULL), whether a group was created
(sp_group != NULL), and the LRU reference count. -/
structure DsPool where
  sp_uuid : Uuid
  sp_map_version : Nat
  sp_has_map : Bool
  sp_has_group : Bool
  sp_ref : Nat
  deriving DecidableEq, Repr

/-- One ds_pool_hdl record: a handle table entry with handle uuid, capability
mask, the uuid of the pool it strongly references, and its reference count. -/
structure DsPoolHdl where
  sph_uuid : Uuid
  sph_capas : Nat
  sph_pool : Uuid
  sph_ref : Nat
  deriving DecidableEq, Repr

/-- The mutable state of the subsystem: the handle table (pool_hdl_hash), the
pool cache (pool_cache), one child registry list per execution stream
(dt_pool_list of each dsm_tls), and handle records that have been unlinked from
the table while still referenced elsewhere. -/
structure SrvState where
  pool_hdl_hash : List DsPoolHdl
  pool_cache : List DsPool
  streams : List (List DsPoolChild)
  orphans : List DsPoolHdl
  deriving DecidableEq, Repr

/-! Child registry operations, one registry per execution stream. -/

/-- Linear scan of one registry, as daos_list_for_each_entry with
uuid_compare in ds_pool_child_lookup; returns the first match. -/
def childFind : List DsPoolChild → Uuid → Option DsPoolChild
  | [], _ => none
  | c :: t, u => if c.spc_uuid == u then some c else childFind t u

/-- Overwrite the cached map version of the first matching child. -/
def childSetVersion : List DsPoolChild → Uuid → Nat → List DsPoolChild
  | [], _, _ => []
  | c :: t, u, mv =>
    if c.spc_uuid == u then { c with spc_map_version := mv } :: t
    else c :: childSetVersion t u mv

/-- Unlink the first matching child from the registry list
(daos_list_del_init). -/
def childErase : List DsPoolChild → Uuid → List DsPoolChild
  | [], _ => []
  | c :: t, u => if c.spc_uuid == u then t else c :: childErase t u

/-- pool_child_add_one, run on one stream via dss_collective. On a lookup hit
the bump of ds_pool_child_lookup and the following ds_pool_child_put cancel,
leaving the registry unchanged; on a miss a fresh child with one reference is
linked at the head (daos_list_add). Path resolution and the VOS open are
external collaborators whose failures the call sites turn into a fatal
assertion on the collective result, so the embedded operation is total. -/
def pool_child_add_one (u : Uuid) (mv : Nat) (reg : List DsPoolChild) :
    List DsPoolChild :=
  match childFind reg u with
  | some _ => reg
  | none => { spc_uuid := u, spc_map_version := mv, spc_ref := 1 } :: reg

/-- pool_child_delete_one, run on one stream via dss_collective: a miss is a
no-op; a hit unlinks the child and drops both the lookup reference and the
registry membership reference, freeing the entry (registry entries at rest
hold exactly the membership reference). -/
def pool_child_delete_one (u : Uuid) (reg : List DsPoolChild) :
    List DsPoolChild :=
  match childFind reg u with
  | none => reg
  | some _ => childErase reg u

/-- update_child_map_version, run on one stream via dss_collective: a miss
returns -DER_NONEXIST; a hit overwrites the cached version (the lookup bump
and the final put cancel). -/
def update_child_map_version (u : Uuid) (mv : Nat) (reg : List DsPoolChild) :
    Except Rc (List DsPoolChild) :=
  match childFind reg u with
  | none => .error .nonexist
  | some _ => .ok (childSetVersion reg u mv)

/-- dss_collective over update_child_map_version: run the operation once per
execution stream; any stream error is reported to the caller. -/
def dss_collective_update (u : Uuid) (mv : Nat) :
    List (List DsPoolChild) → Except Rc (List (List DsPoolChild))
  | [] => .ok []
  | reg :: rest =>
    match update_child_map_version u mv reg with
    | .error e => .error e
    | .ok reg₁ =>
      match dss_collective_update u mv rest with
      | .error e => .error e
      | .ok rest₁ => .ok (reg₁ :: rest₁)

/-! Pool cache operations. -/

/-- Key lookup in the pool cache, as pool_cmp_keys over the LRU entries. -/
def cacheFind : List DsPool → Uuid → Option DsPool
  | [], _ => none
  | p :: t, u => if p.sp_uuid == u then some p else cacheFind t u

/-- Take one more LRU reference on the first matching entry
(daos_lru_ref_hold on a hit). -/
def cacheIncRef : List DsPool → Uuid → List DsPool
  | [], _ => []
  | p :: t, u =>
    if p.sp_uuid == u then { p with sp_ref := p.sp_ref + 1 } :: t
    else p :: cacheIncRef t u

/-- Drop one LRU reference on the first matching entry (daos_lru_ref_release
through ds_pool_put); eviction policy past refcount zero belongs to the LRU
cache collaborator and is not observed by this file. -/
def cacheDecRef : List DsPool → Uuid → List DsPool
  | [], _ => []
  | p :: t, u =>
    if p.sp_uuid == u then { p with sp_ref := p.sp_ref - 1 } :: t
    else p :: cacheDecRef t u

/-- Overwrite sp_map_version of the first matching entry. -/
def cacheSetVersion : List DsPool → Uuid → Nat → List DsPool
  | [], _, _ => []
  | p :: t, u, mv =>
    if p.sp_uuid == u then { p with sp_map_version := mv } :: t
    else p :: cacheSetVersion t u mv

/-! Pool object construction (pool_alloc_ref). -/

/-- The resources pool_alloc_ref acquires, in program order: the ds_pool
allocation, the ABT rwlock, the parsed pool map, the collective child
creation across all streams, and the communication group. -/
inductive PoolRes where
  | resPool
  | resLock
  | resMap
  | resChildren
  | resGroup
  deriving DecidableEq, Repr

/-- Acquisition and release events emitted by pool_alloc_ref, recording the
order in which resources are obtained and, on an error path, unwound. -/
inductive AllocEvent where
  | acq : PoolRes → AllocEvent
  | rel : PoolRes → AllocEvent
  deriving DecidableEq, Repr

/-- Projection of the acquisition events of a trace, in order. -/
def acquires : List AllocEvent → List PoolRes
  | [] => []
  | .acq r :: t => r :: acquires t
  | .rel _ :: t => acquires t

/-- Projection of the release events of a trace, in order. -/
def releases : List AllocEvent → List PoolRes
  | [] => []
  | .acq _ :: t => releases t
  | .rel r :: t => r :: releases t

/-- ds_pool_create_arg: the map buffer is only ever tested against NULL and
handed to the map codec, so it is modelled by its presence. -/
structure PoolCreateArg where
  pca_map_buf : Bool
  pca_map_version : Nat
  pca_create_group : Bool
  deriving DecidableEq, Repr

/-- Outcomes of the fallible steps inside pool_alloc_ref: the D_ALLOC_PTR of
the pool object, ABT_rwlock_create, pool_map_create, and
ds_pool_group_create. -/
structure AllocRefOracle where
  allocOk : Bool
  lockOk : Bool
  mapOk : Bool
  groupOk : Bool
  deriving DecidableEq, Repr

/-- pool_alloc_ref: build a ds_pool for the given key. Returns the created
object or the first error, the updated per-stream registries, and the trace of
resource acquisitions and releases. The dss_collective over
pool_child_add_one has its result asserted zero in the source, so it is
modelled as total; on a later group failure the err_collective path runs
pool_child_delete_one collectively, destroys the map when one was parsed,
frees the lock and frees the object, in that order. -/
def pool_alloc_ref (orc : AllocRefOracle) (key : Uuid) (arg : Option PoolCreateArg)
    (streams : List (List DsPoolChild)) :
    Except Rc DsPool × List (List DsPoolChild) × List AllocEvent :=
  match arg with
  | none => (.error .nonexist, streams, [])
  | some a =>
    if orc.allocOk = false then (.error .nomem, streams, [])
    else if orc.lockOk = false then
      (.error .abterr, streams, [.acq .resPool, .rel .resPool])
    else if a.pca_map_buf && !orc.mapOk then
      (.error .maperr, streams,
        [.acq .resPool, .acq .resLock, .rel .resLock, .rel .resPool])
    else
      let streams₁ := streams.map (pool_child_add_one key a.pca_map_version)
      if a.pca_create_group && !orc.groupOk then
        (.error .grouperr, streams₁.map (pool_child_delete_one key),
          [.acq .resPool, .acq .resLock]
            ++ (if a.pca_map_buf then [.acq .resMap] else [])
            ++ [.acq .resChildren, .rel .resChildren]
            ++ (if a.pca_map_buf then [.rel .resMap] else [])
            ++ [.rel .resLock, .rel .resPool])
      else
        (.ok { sp_uuid := key, sp_map_version := a.pca_map_version,
               sp_has_map := a.pca_map_buf, sp_has_group := a.pca_create_group,
               sp_ref := 1 },
         streams₁,
         [.acq .resPool, .acq .resLock]
           ++ (if a.pca_map_buf then [.acq .resMap] else [])
           ++ [.acq .resChildren]
           ++ (if a.pca_create_group then [.acq .resGroup] else []))

/-- ds_pool_lookup_create: with no argument this is a pure lookup failing with
-DER_NONEXIST on a miss; a hit takes a new LRU reference and ignores the
argument; a miss with an argument builds the object through pool_alloc_ref
and inserts it holding the new reference. -/
def ds_pool_lookup_create (orc : AllocRefOracle) (cache : List DsPool)
    (streams : List (List DsPoolChild)) (u : Uuid) (arg : Option PoolCreateArg) :
    Except Rc (List DsPool × List (List DsPoolChild)) :=
  match cacheFind cache u with
  | some _ => .ok (cacheIncRef cache u, streams)
  | none =>
    match arg with
    | none => .error .nonexist
    | some a =>
      match pool_alloc_ref orc u (some a) streams with
      | (.error e, _, _) => .error e
      | (.ok pool, streams₁, _) => .ok (pool :: cache, streams₁)

/-! Handle table operations. -/

/-- dhash_rec_find key scan, as pool_hdl_key_cmp; exclusive insertion keeps
keys unique so the first match is the only match. The returned record is the
entry as stored before the transient addref of the lookup. -/
def hdlLookup : List DsPoolHdl → Uuid → Option DsPoolHdl
  | [], _ => none
  | h :: t, u => if h.sph_uuid == u then some h else hdlLookup t u

/-- pool_hdl_rec_addref on the first matching entry. -/
def hdlIncRef : List DsPoolHdl → Uuid → List DsPoolHdl
  | [], _ => []
  | h :: t, u =>
    if h.sph_uuid == u then { h with sph_ref := h.sph_ref + 1 } :: t
    else h :: hdlIncRef t u

/-- pool_hdl_rec_decref on the first matching entry. -/
def hdlDecRef : List DsPoolHdl → Uuid → List DsPoolHdl
  | [], _ => []
  | h :: t, u =>
    if h.sph_uuid == u then { h with sph_ref := h.sph_ref - 1 } :: t
    else h :: hdlDecRef t u

/-- Unlink the first matching entry from the table (dhash_rec_delete). -/
def hdlErase : List DsPoolHdl → Uuid → List DsPoolHdl
  | [], _ => []
  | h :: t, u => if h.sph_uuid == u then t else h :: hdlErase t u

/-! Connect handler. -/

/-- pool_tgt_connect_in: pool uuid, handle uuid, capability mask, map
version. -/
structure PoolTgtConnectIn where
  tci_uuid : Uuid
  tci_hdl : Uuid
  tci_capas : Nat
  tci_map_version : Nat
  deriving DecidableEq, Repr

/-- Outcomes of the fallible allocations on the connect path: the D_ALLOC_PTR
of the new handle, and the stages of pool_alloc_ref reached through
ds_pool_lookup_create. -/
structure ConnectOracle where
  hdlAllocOk : Bool
  poolOracle : AllocRefOracle
  deriving DecidableEq, Repr

/-- Body of ds_pool_tgt_connect_handler, returning the internal rc and the
state after the request. A lookup hit bumps the record, compares the
capability masks, and the final ds_pool_hdl_put drops the bump again; a miss
allocates a handle, resolves or creates the pool with pca_map_buf NULL and
pca_create_group 0, copies uuid, mask and pool reference into the handle, and
inserts it exclusively, releasing the pool reference when the exclusive insert
reports a duplicate. -/
def connect_internal (orc : ConnectOracle) (s : SrvState)
    (i : PoolTgtConnectIn) : Rc × SrvState :=
  match hdlLookup s.pool_hdl_hash i.tci_hdl with
  | some hdl =>
    (if hdl.sph_capas == i.tci_capas then Rc.ok else Rc.exist,
     { s with pool_hdl_hash :=
         hdlDecRef (hdlIncRef s.pool_hdl_hash i.tci_hdl) i.tci_hdl })
  | none =>
    if orc.hdlAllocOk = false then (.nomem, s)
    else
      match ds_pool_lookup_create orc.poolOracle s.pool_cache s.streams
          i.tci_uuid
          (some { pca_map_buf := false, pca_map_version := i.tci_map_version,
                  pca_create_group := false }) with
      | .error e => (e, s)
      | .ok (cache₁, streams₁) =>
        let hdl : DsPoolHdl :=
          { sph_uuid := i.tci_hdl, sph_capas := i.tci_capas,
            sph_pool := i.tci_uuid, sph_ref := 1 }
        match hdlLookup s.pool_hdl_hash i.tci_hdl with
        | some _ =>
          (.exist, { s with pool_cache := cacheDecRef cache₁ i.tci_uuid,
                            streams := streams₁ })
        | none =>
          (.ok, { s with pool_hdl_hash := hdl :: s.pool_hdl_hash,
                         pool_cache := cache₁, streams := streams₁ })

/-- ds_pool_tgt_connect_handler: run the body and reply with
tco_rc = (rc == 0 ? 0 : 1). -/
def ds_pool_tgt_connect_handler (orc : ConnectOracle) (s : SrvState)
    (i : PoolTgtConnectIn) : Nat × SrvState :=
  let r := connect_internal orc s i
  (rcToReply r.1, r.2)

/-! Disconnect handler. -/

/-- pool_tgt_disconnect_in: pool uuid and the handle uuid array with its
declared count; the array pointer may be NULL, modelled as none. -/
structure PoolTgtDisconnectIn where
  tdi_uuid : Uuid
  tdi_hdls_arrays : Option (List Uuid)
  tdi_hdls_count : Nat
  deriving DecidableEq, Repr

/-- One iteration of the disconnect loop: a lookup miss skips the identifier;
a hit unlinks the record from the table and drops both the table reference and
the lookup reference, so a record held only by the table is freed, releasing
its pool reference, while a record with other holders survives unlinked. -/
def disconnect_one (s : SrvState) (h : Uuid) : SrvState :=
  match hdlLookup s.pool_hdl_hash h with
  | none => s
  | some hdl =>
    if hdl.sph_ref == 1 then
      { s with pool_hdl_hash := hdlErase s.pool_hdl_hash h,
               pool_cache := cacheDecRef s.pool_cache hdl.sph_pool }
    else
      { s with pool_hdl_hash := hdlErase s.pool_hdl_hash h,
               orphans := { hdl with sph_ref := hdl.sph_ref - 1 } :: s.orphans }

/-- Body of ds_pool_tgt_disconnect_handler: a zero declared count succeeds
before the array pointer is examined; a NULL array with nonzero count is
-DER_INVAL; otherwise the first declared-count identifiers are processed in
order and the request succeeds. -/
def disconnect_internal (s : SrvState) (i : PoolTgtDisconnectIn) :
    Rc × SrvState :=
  if i.tdi_hdls_count == 0 then (.ok, s)
  else
    match i.tdi_hdls_arrays with
    | none => (.inval, s)
    | some arr => (.ok, (arr.take i.tdi_hdls_count).foldl disconnect_one s)

/-- ds_pool_tgt_disconnect_handler: run the body and reply with
tdo_rc = (rc == 0 ? 0 : 1). -/
def ds_pool_tgt_disconnect_handler (s : SrvState) (i : PoolTgtDisconnectIn) :
    Nat × SrvState :=
  let r := disconnect_internal s i
  (rcToReply r.1, r.2)

/-! Update-map handler. -/

/-- pool_tgt_update_map_in: pool uuid and the new map version. -/
structure PoolTgtUpdateMapIn where
  tui_uuid : Uuid
  tui_map_version : Nat
  deriving DecidableEq, Repr

/-- Observable steps of the update-map handler on its success path: the
collective fan-out, taking the writer lock, overwriting sp_map_version, and
releasing the lock. -/
inductive UmEvent where
  | evCollective
  | evWrlock
  | evSetVersion
  | evUnlock
  deriving DecidableEq, Repr

/-- Body of ds_pool_tgt_update_map_handler. A pure-lookup miss on the pool
cache replies -DER_NONEXIST without touching any stream; on a hit the handler
holds the pool, fans out update_child_map_version over every stream with the
collective result asserted zero (a stream without a registry entry makes the
assertion fail, modelled as none), then overwrites the pool version under the
writer lock and releases the pool. -/
def ds_pool_tgt_update_map_internal (s : SrvState) (i : PoolTgtUpdateMapIn) :
    Option (Rc × SrvState × List UmEvent) :=
  match cacheFind s.pool_cache i.tui_uuid with
  | none => some (.nonexist, s, [])
  | some _ =>
    let cache₁ := cacheIncRef s.pool_cache i.tui_uuid
    match dss_collective_update i.tui_uuid i.tui_map_version s.streams with
    | .error _ => none
    | .ok streams₁ =>
      let cache₂ := cacheSetVersion cache₁ i.tui_uuid i.tui_map_version
      let cache₃ := cacheDecRef cache₂ i.tui_uuid
      some (.ok, { s with pool_cache := cache₃, streams := streams₁ },
        [.evCollective, .evWrlock, .evSetVersion, .evUnlock])

/-- ds_pool_tgt_update_map_handler: run the body when it does not abort and
reply with tuo_rc = (rc == 0 ? 0 : 1). -/
def ds_pool_tgt_update_map_handler (s : SrvState) (i : PoolTgtUpdateMapIn) :
    Option (Nat × SrvState × List UmEvent) :=
  (ds_pool_tgt_update_map_internal s i).map (fun r => (rcToReply r.1, r.2))

/-! Reply aggregators. -/

/-- pool_tgt_connect_out: the failure count carried on the wire. -/
structure PoolTgtConnectOut where
  tco_rc : Nat
  deriving DecidableEq, Repr

/-- pool_tgt_disconnect_out. -/
structure PoolTgtDisconnectOut where
  tdo_rc : Nat
  deriving DecidableEq, Repr

/-- pool_tgt_update_map_out. -/
structure PoolTgtUpdateMapOut where
  tuo_rc : Nat
  deriving DecidableEq, Repr

/-- ds_pool_tgt_connect_aggregator: out_result tco_rc += out_source tco_rc. -/
def ds_pool_tgt_connect_aggregator (source result : PoolTgtConnectOut) :
    PoolTgtConnectOut :=
  { result with tco_rc := result.tco_rc + source.tco_rc }

/-- ds_pool_tgt_disconnect_aggregator: out_result tdo_rc += out_source
tdo_rc. -/
def ds_pool_tgt_disconnect_aggregator (source result : PoolTgtDisconnectOut) :
    PoolTgtDisconnectOut :=
  { result with tdo_rc := result.tdo_rc + source.tdo_rc }

/-- ds_pool_tgt_update_map_aggregator: out_result tuo_rc += out_source
tuo_rc. -/
def ds_pool_tgt_update_map_aggregator (source result : PoolTgtUpdateMapOut) :
    PoolTgtUpdateMapOut :=
  { result with tuo_rc := result.tuo_rc + source.tuo_rc }

/-! Helper lemmas about the embedded operations. -/

/-- The transient reference taken by a handle lookup is cancelled by the
matching put, leaving the table unchanged. -/
theorem hdlDecRef_hdlIncRef (t : List DsPoolHdl) (u : Uuid) :
    hdlDecRef (hdlIncRef t u) u = t := by
  induction t with
  | nil => rfl
  | cons h rest ih =>
    by_cases hu : h.sph_uuid == u
    · simp [hdlIncRef, hdlDecRef, hu]
    · simp [hdlIncRef, hdlDecRef, hu, ih]

/-- Taking an LRU reference changes only the refcount of the matching
entry, as seen by a subsequent lookup. -/
theorem cacheFind_incRef (c : List DsPool) (u : Uuid) :
    cacheFind (cacheIncRef c u) u =
      (cacheFind c u).map (fun p => { p with sp_ref := p.sp_ref + 1 }) := by
  induction c with
  | nil => rfl
  | cons p t ih =>
    by_cases hu : p.sp_uuid == u
    · simp [cacheIncRef, cacheFind, hu]
    · simp [cacheIncRef, cacheFind, hu, ih]

/-- Dropping an LRU reference changes only the refcount of the matching
entry, as seen by a subsequent lookup. -/
theorem cacheFind_decRef (c : List DsPool) (u : Uuid) :
    cacheFind (cacheDecRef c u) u =
      (cacheFind c u).map (fun p => { p with sp_ref := p.sp_ref - 1 }) := by
  induction c with
  | nil => rfl
  | cons p t ih =>
    by_cases hu : p.sp_uuid == u
    · simp [cacheDecRef, cacheFind, hu]
    · simp [cacheDecRef, cacheFind, hu, ih]

/-- Overwriting the cached pool version changes only that field of the
matching entry, as seen by a subsequent lookup. -/
theorem cacheFind_setVersion (c : List DsPool) (u : Uuid) (mv : Nat) :
    cacheFind (cacheSetVersion c u mv) u =
      (cacheFind c u).map (fun p => { p with sp_map_version := mv }) := by
  induction c with
  | nil => rfl
  | cons p t ih =>
    by_cases hu : p.sp_uuid == u
    · simp [cacheSetVersion, cacheFind, hu]
    · simp [cacheSetVersion, cacheFind, hu, ih]

/-- The hold, overwrite, release pipeline of the update-map handler leaves the
looked-up entry carrying exactly the new version. -/
theorem cacheFind_pipeline (c : List DsPool) (u : Uuid) (mv : Nat) :
    (cacheFind (cacheDecRef (cacheSetVersion (cacheIncRef c u) u mv) u) u).map
        DsPool.sp_map_version
      = (cacheFind c u).map (fun _ => mv) := by
  rw [cacheFind_decRef, cacheFind_setVersion, cacheFind_incRef]
  cases cacheFind c u <;> simp

/-- Overwriting a cached child version changes only that field of the matching
child, as seen by a subsequent lookup. -/
theorem childFind_setVersion (reg : List DsPoolChild) (u : Uuid) (mv : Nat) :
    childFind (childSetVersion reg u mv) u =
      (childFind reg u).map (fun c => { c with spc_map_version := mv }) := by
  induction reg with
  | nil => rfl
  | cons c t ih =>
    by_cases hu : c.spc_uuid == u
    · simp [childSetVersion, childFind, hu]
    · simp [childSetVersion, childFind, hu, ih]

/-- When every stream holds a registry entry for the pool, the collective
version update succeeds and every stream ends up caching the new version. -/
theorem dss_collective_update_ok (u : Uuid) (mv : Nat)
    (streams : List (List DsPoolChild))
    (h : ∀ reg ∈ streams, (childFind reg u).isSome) :
    ∃ streams₁, dss_collective_update u mv streams = .ok streams₁ ∧
      ∀ reg ∈ streams₁,
        (childFind reg u).map DsPoolChild.spc_map_version = some mv := by
  induction streams with
  | nil => exact ⟨[], rfl, by simp⟩
  | cons reg rest ih =>
    have h1 : (childFind reg u).isSome := h reg (by simp)
    obtain ⟨c, hc⟩ := Option.isSome_iff_exists.mp h1
    obtain ⟨rest₁, hrest, hall⟩ := ih (fun r hr => h r (by simp [hr]))
    refine ⟨childSetVersion reg u mv :: rest₁, ?_, ?_⟩
    · simp [dss_collective_update, update_child_map_version, hc, hrest]
    · intro r hr
      rcases List.mem_cons.mp hr with hr | hr
      · subst hr
        rw [childFind_setVersion, hc]
        rfl
      · exact hall r hr

/-- A stream without a registry entry for the pool makes the collective
version update fail. -/
theorem dss_collective_update_error (u : Uuid) (mv : Nat)
    (streams : List (List DsPoolChild))
    (h : ∃ reg ∈ streams, childFind reg u = none) :
    ∃ e, dss_collective_update u mv streams = .error e := by
  induction streams with
  | nil => simp at h
  | cons reg rest ih =>
    obtain ⟨r, hr, hnone⟩ := h
    rcases List.mem_cons.mp hr with hr | hr
    · subst hr
      exact ⟨.nonexist, by simp [dss_collective_update,
        update_child_map_version, hnone]⟩
    · cases hfind : childFind reg u with
      | none =>
        exact ⟨.nonexist, by simp [dss_collective_update,
          update_child_map_version, hfind]⟩
      | some c =>
        obtain ⟨e, he⟩ := ih ⟨r, hr, hnone⟩
        exact ⟨e, by simp [dss_collective_update,
          update_child_map_version, hfind, he]⟩

/-- The wire mapping sends exactly rc zero to reply zero. -/
theorem rcToReply_eq_zero (rc : Rc) : rcToReply rc = 0 ↔ rc = Rc.ok := by
  cases rc <;> simp [rcToReply]

/-- The wire mapping only produces the counts zero and one. -/
theorem rcToReply_cases (rc : Rc) : rcToReply rc = 0 ∨ rcToReply rc = 1 := by
  cases rc <;> simp [rcToReply]

/-- Pool construction never reports its first error as rc zero. -/
theorem pool_alloc_ref_error_ne_ok (orc : AllocRefOracle) (key : Uuid)
    (a : PoolCreateArg) (streams : List (List DsPoolChild)) (e : Rc)
    (st : List (List DsPoolChild)) (ev : List AllocEvent)
    (h : pool_alloc_ref orc key (some a) streams = (.error e, st, ev)) :
    e ≠ Rc.ok := by
  unfold pool_alloc_ref at h
  repeat' split at h
  all_goals simp at h
  all_goals obtain ⟨he, -, -⟩ := h
  all_goals subst he
  all_goals decide

/-- Pool lookup-or-create never reports its error as rc zero. -/
theorem ds_pool_lookup_create_error_ne_ok (orc : AllocRefOracle)
    (cache : List DsPool) (streams : List (List DsPoolChild)) (u : Uuid)
    (arg : Option PoolCreateArg) (e : Rc)
    (h : ds_pool_lookup_create orc cache streams u arg = .error e) :
    e ≠ Rc.ok := by
  unfold ds_pool_lookup_create at h
  split at h
  · simp at h
  · split at h
    · simp at h
      simp [h.symm]
    · split at h
      next e₁ st ev heq =>
        simp at h
        exact h ▸ pool_alloc_ref_error_ne_ok _ _ _ _ _ _ _ heq
      next => simp at h

/-- A connect request that replies success leaves a handle table entry with
the requested handle uuid and capability mask. -/
theorem connect_success_entry (orc : ConnectOracle) (s : SrvState)
    (i : PoolTgtConnectIn) (h : (connect_internal orc s i).1 = Rc.ok) :
    ∃ hdl, hdlLookup (connect_internal orc s i).2.pool_hdl_hash i.tci_hdl
        = some hdl ∧ hdl.sph_capas = i.tci_capas := by
  cases hl : hdlLookup s.pool_hdl_hash i.tci_hdl with
  | some hdl =>
    by_cases hc : hdl.sph_capas = i.tci_capas
    · refine ⟨hdl, ?_, hc⟩
      simp [connect_internal, hl, hdlDecRef_hdlIncRef]
    · exfalso
      simp [connect_internal, hl, hc] at h
  | none =>
    by_cases ha : orc.hdlAllocOk
    · cases he : ds_pool_lookup_create orc.poolOracle s.pool_cache s.streams
          i.tci_uuid
          (some { pca_map_buf := false, pca_map_version := i.tci_map_version,
                  pca_create_group := false }) with
      | error e =>
        exfalso
        simp [connect_internal, hl, ha, he] at h
        exact ds_pool_lookup_create_error_ne_ok _ _ _ _ _ _ he h
      | ok pr =>
        refine ⟨{ sph_uuid := i.tci_hdl, sph_capas := i.tci_capas,
                  sph_pool := i.tci_uuid, sph_ref := 1 }, ?_, rfl⟩
        simp [connect_internal, hl, ha, he, hdlLookup]
    · exfalso
      simp [connect_internal, hl, ha] at h

/-! Claim theorems. -/

/-- C1: a connect request whose handle uuid already sits in the handle table
with the same capability mask replies with failure count 0 and leaves the
whole state unchanged (no new entry, refcount unchanged beyond the transient
lookup reference); consequently a second identical connect after any
successful connect replies 0 and changes nothing. -/
theorem connect_existing_same_capas (orc orc₂ : ConnectOracle) (s s₀ : SrvState)
    (i : PoolTgtConnectIn) (hdl : DsPoolHdl)
    (hfound : hdlLookup s.pool_hdl_hash i.tci_hdl = some hdl)
    (hcap : hdl.sph_capas = i.tci_capas) :
    ds_pool_tgt_connect_handler orc s i = (0, s) ∧
    ((ds_pool_tgt_connect_handler orc₂ s₀ i).1 = 0 →
      ds_pool_tgt_connect_handler orc
          (ds_pool_tgt_connect_handler orc₂ s₀ i).2 i
        = (0, (ds_pool_tgt_connect_handler orc₂ s₀ i).2)) := by
  constructor
  · simp [ds_pool_tgt_connect_handler, connect_internal, hfound, hcap,
      hdlDecRef_hdlIncRef, rcToReply]
  · intro h0
    have hrc : (connect_internal orc₂ s₀ i).1 = Rc.ok := by
      have : rcToReply (connect_internal orc₂ s₀ i).1 = 0 := h0
      exact (rcToReply_eq_zero _).mp this
    obtain ⟨hdl₂, hl₂, hc₂⟩ := connect_success_entry orc₂ s₀ i hrc
    show ds_pool_tgt_connect_handler orc (connect_internal orc₂ s₀ i).2 i
        = (0, (connect_internal orc₂ s₀ i).2)
    generalize hg : (connect_internal orc₂ s₀ i).2 = s₁ at hl₂ ⊢
    simp [ds_pool_tgt_connect_handler, connect_internal, hl₂, hc₂,
      hdlDecRef_hdlIncRef, rcToReply]

/-- C2: a connect request whose handle uuid already sits in the handle table
with a different capability mask fails with -DER_EXIST, replies with failure
count 1, and leaves the whole state unchanged (no insertion, existing entry
untouched). -/
theorem connect_conflict (orc : ConnectOracle) (s : SrvState)
    (i : PoolTgtConnectIn) (hdl : DsPoolHdl)
    (hfound : hdlLookup s.pool_hdl_hash i.tci_hdl = some hdl)
    (hcap : hdl.sph_capas ≠ i.tci_capas) :
    connect_internal orc s i = (Rc.exist, s) ∧
    ds_pool_tgt_connect_handler orc s i = (1, s) := by
  have h1 : connect_internal orc s i = (Rc.exist, s) := by
    simp [connect_internal, hfound, hcap, hdlDecRef_hdlIncRef]
  refine ⟨h1, ?_⟩
  simp [ds_pool_tgt_connect_handler, h1, rcToReply]

/-- C9: on the path where the handle uuid is already present, the connect
decision depends only on the capability mask comparison: two requests with the
same handle uuid and mask but arbitrary pool uuids produce identical results,
and in particular a matching mask with a pool uuid different from the one the
entry references still replies 0 and changes nothing. -/
theorem connect_ignores_pool_id (orc : ConnectOracle) (s : SrvState)
    (i₁ i₂ : PoolTgtConnectIn) (hdl : DsPoolHdl)
    (hfound : hdlLookup s.pool_hdl_hash i₁.tci_hdl = some hdl)
    (hhdl : i₂.tci_hdl = i₁.tci_hdl) (hcap : i₂.tci_capas = i₁.tci_capas) :
    ds_pool_tgt_connect_handler orc s i₁ = ds_pool_tgt_connect_handler orc s i₂ ∧
    (hdl.sph_capas = i₁.tci_capas → i₁.tci_uuid ≠ hdl.sph_pool →
      ds_pool_tgt_connect_handler orc s i₁ = (0, s)) := by
  have hfound₂ : hdlLookup s.pool_hdl_hash i₂.tci_hdl = some hdl := by
    rw [hhdl]; exact hfound
  constructor
  · simp [ds_pool_tgt_connect_handler, connect_internal, hfound, hfound₂,
      hhdl, hcap]
  · intro hc _
    simp [ds_pool_tgt_connect_handler, connect_internal, hfound, hc,
      hdlDecRef_hdlIncRef, rcToReply]

/-- C7: a handle uuid in a disconnect request that is absent from the handle
table is skipped without mutating anything for it, and a request whose handle
array is present replies with failure count 0. -/
theorem disconnect_unknown_skipped (s : SrvState) (i : PoolTgtDisconnectIn)
    (arr : List Uuid) (h : Uuid)
    (harr : i.tdi_hdls_arrays = some arr)
    (habsent : hdlLookup s.pool_hdl_hash h = none) :
    disconnect_one s h = s ∧ (ds_pool_tgt_disconnect_handler s i).1 = 0 := by
  constructor
  · simp [disconnect_one, habsent]
  · by_cases hc : i.tdi_hdls_count = 0
    · simp [ds_pool_tgt_disconnect_handler, disconnect_internal, hc, rcToReply]
    · simp [ds_pool_tgt_disconnect_handler, disconnect_internal, hc, harr,
        rcToReply]

/-- C8: a disconnect request with a NULL handle array but nonzero declared
count fails with -DER_INVAL, replies with failure count 1 and mutates nothing,
while a request with declared count zero replies 0 and mutates nothing no
matter what the array pointer is. -/
theorem disconnect_null_vs_empty (s : SrvState) (i : PoolTgtDisconnectIn) :
    (i.tdi_hdls_count ≠ 0 → i.tdi_hdls_arrays = none →
      disconnect_internal s i = (Rc.inval, s) ∧
      ds_pool_tgt_disconnect_handler s i = (1, s)) ∧
    (i.tdi_hdls_count = 0 → ds_pool_tgt_disconnect_handler s i = (0, s)) := by
  constructor
  · intro hc hn
    have h1 : disconnect_internal s i = (Rc.inval, s) := by
      simp [disconnect_internal, hc, hn]
    refine ⟨h1, ?_⟩
    simp [ds_pool_tgt_disconnect_handler, h1, rcToReply]
  · intro hc
    simp [ds_pool_tgt_disconnect_handler, disconnect_internal, hc, rcToReply]

/-- C5: an update-map request for a pool uuid with no entry in the pool cache
fails with -DER_NONEXIST, replies with failure count 1, leaves the state
unchanged and emits no collective fan-out. -/
theorem update_map_no_pool (s : SrvState) (i : PoolTgtUpdateMapIn)
    (hmiss : cacheFind s.pool_cache i.tui_uuid = none) :
    ds_pool_tgt_update_map_internal s i = some (Rc.nonexist, s, []) ∧
    ds_pool_tgt_update_map_handler s i = some (1, s, []) := by
  have h1 : ds_pool_tgt_update_map_internal s i = some (.nonexist, s, []) := by
    simp [ds_pool_tgt_update_map_internal, hmiss]
  refine ⟨h1, ?_⟩
  simp [ds_pool_tgt_update_map_handler, h1, rcToReply]

/-- C6: an update-map request for a pool uuid present in the pool cache, when
every stream has a registry entry for it, runs one collective fan-out, then
overwrites the pool version between taking and releasing the writer lock; it
replies 0, every stream caches the new version, the pool cache entry carries
the new version and the handle table is untouched. When some stream lacks a
registry entry the asserted collective result makes the handler fatal. -/
theorem update_map_existing_pool (s : SrvState) (i : PoolTgtUpdateMapIn)
    (p : DsPool)
    (hfind : cacheFind s.pool_cache i.tui_uuid = some p) :
    ((∀ reg ∈ s.streams, (childFind reg i.tui_uuid).isSome) →
      ∃ r, ds_pool_tgt_update_map_handler s i = some r ∧
        r.1 = 0 ∧
        r.2.2 = [UmEvent.evCollective, UmEvent.evWrlock, UmEvent.evSetVersion,
          UmEvent.evUnlock] ∧
        (∀ reg ∈ r.2.1.streams,
          (childFind reg i.tui_uuid).map DsPoolChild.spc_map_version
            = some i.tui_map_version) ∧
        (cacheFind r.2.1.pool_cache i.tui_uuid).map DsPool.sp_map_version
          = some i.tui_map_version ∧
        r.2.1.pool_hdl_hash = s.pool_hdl_hash) ∧
    ((∃ reg ∈ s.streams, childFind reg i.tui_uuid = none) →
      ds_pool_tgt_update_map_handler s i = none) := by
  constructor
  · intro hall
    obtain ⟨streams₁, hcol, hver⟩ :=
      dss_collective_update_ok i.tui_uuid i.tui_map_version s.streams hall
    refine ⟨(0,
      { s with
        pool_cache := cacheDecRef (cacheSetVersion
          (cacheIncRef s.pool_cache i.tui_uuid) i.tui_uuid i.tui_map_version)
          i.tui_uuid,
        streams := streams₁ },
      [UmEvent.evCollective, UmEvent.evWrlock, UmEvent.evSetVersion,
        UmEvent.evUnlock]), ?_, rfl, rfl, ?_, ?_, rfl⟩
    · simp [ds_pool_tgt_update_map_handler, ds_pool_tgt_update_map_internal,
        hfind, hcol, rcToReply]
    · intro reg hreg
      exact hver reg hreg
    · rw [cacheFind_pipeline, hfind]
      rfl
  · intro hmissing
    obtain ⟨e, he⟩ :=
      dss_collective_update_error i.tui_uuid i.tui_map_version s.streams hmissing
    simp [ds_pool_tgt_update_map_handler, ds_pool_tgt_update_map_internal,
      hfind, he]

/-- Folding the connect aggregator accumulates the failure counts. -/
theorem connect_agg_foldl (l : List PoolTgtConnectOut) (a : Nat) :
    ((l.foldl (fun res src => ds_pool_tgt_connect_aggregator src res)
      ⟨a⟩).tco_rc) = a + (l.map PoolTgtConnectOut.tco_rc).sum := by
  induction l generalizing a with
  | nil => simp
  | cons x t ih =>
    have step : (((x :: t).foldl (fun res src => ds_pool_tgt_connect_aggregator src res)
        ⟨a⟩)) = (t.foldl (fun res src => ds_pool_tgt_connect_aggregator src res)
        ⟨a + x.tco_rc⟩) := rfl
    rw [step, ih]
    simp only [List.map_cons, List.sum_cons]
    omega

/-- Folding the disconnect aggregator accumulates the failure counts. -/
theorem disconnect_agg_foldl (l : List PoolTgtDisconnectOut) (a : Nat) :
    ((l.foldl (fun res src => ds_pool_tgt_disconnect_aggregator src res)
      ⟨a⟩).tdo_rc) = a + (l.map PoolTgtDisconnectOut.tdo_rc).sum := by
  induction l generalizing a with
  | nil => simp
  | cons x t ih =>
    have step : (((x :: t).foldl (fun res src => ds_pool_tgt_disconnect_aggregator src res)
        ⟨a⟩)) = (t.foldl (fun res src => ds_pool_tgt_disconnect_aggregator src res)
        ⟨a + x.tdo_rc⟩) := rfl
    rw [step, ih]
    simp only [List.map_cons, List.sum_cons]
    omega

/-- Folding the update-map aggregator accumulates the failure counts. -/
theorem update_map_agg_foldl (l : List PoolTgtUpdateMapOut) (a : Nat) :
    ((l.foldl (fun res src => ds_pool_tgt_update_map_aggregator src res)
      ⟨a⟩).tuo_rc) = a + (l.map PoolTgtUpdateMapOut.tuo_rc).sum := by
  induction l generalizing a with
  | nil => simp
  | cons x t ih =>
    have step : (((x :: t).foldl (fun res src => ds_pool_tgt_update_map_aggregator src res)
        ⟨a⟩)) = (t.foldl (fun res src => ds_pool_tgt_update_map_aggregator src res)
        ⟨a + x.tuo_rc⟩) := rfl
    rw [step, ih]
    simp only [List.map_cons, List.sum_cons]
    omega

/-- A list of counts that are each at most one sums to at most its length. -/
theorem sum_le_length (l : List Nat) (h : ∀ x ∈ l, x ≤ 1) :
    l.sum ≤ l.length := by
  induction l with
  | nil => simp
  | cons x t ih =>
    simp only [List.sum_cons, List.length_cons]
    have hx := h x (by simp)
    have ht := ih (fun y hy => h y (by simp [hy]))
    omega

/-- C3: each of the three reply aggregators merges two partial replies
carrying failure counts a and b into one carrying a + b, and folding N
all-zero replies through any of them yields zero. -/
theorem aggregators_sum :
    (∀ a b : PoolTgtConnectOut,
      ds_pool_tgt_connect_aggregator a b = ⟨b.tco_rc + a.tco_rc⟩) ∧
    (∀ a b : PoolTgtDisconnectOut,
      ds_pool_tgt_disconnect_aggregator a b = ⟨b.tdo_rc + a.tdo_rc⟩) ∧
    (∀ a b : PoolTgtUpdateMapOut,
      ds_pool_tgt_update_map_aggregator a b = ⟨b.tuo_rc + a.tuo_rc⟩) ∧
    (∀ n : Nat, (List.replicate n (⟨0⟩ : PoolTgtConnectOut)).foldl
      (fun res src => ds_pool_tgt_connect_aggregator src res) ⟨0⟩ = ⟨0⟩) ∧
    (∀ n : Nat, (List.replicate n (⟨0⟩ : PoolTgtDisconnectOut)).foldl
      (fun res src => ds_pool_tgt_disconnect_aggregator src res) ⟨0⟩ = ⟨0⟩) ∧
    (∀ n : Nat, (List.replicate n (⟨0⟩ : PoolTgtUpdateMapOut)).foldl
      (fun res src => ds_pool_tgt_update_map_aggregator src res) ⟨0⟩ = ⟨0⟩) := by
  refine ⟨fun a b => rfl, fun a b => rfl, fun a b => rfl, ?_, ?_, ?_⟩
  · intro n
    have h := connect_agg_foldl (List.replicate n (⟨0⟩ : PoolTgtConnectOut)) 0
    simp at h
    cases hfold : (List.replicate n (⟨0⟩ : PoolTgtConnectOut)).foldl
        (fun res src => ds_pool_tgt_connect_aggregator src res) ⟨0⟩ with
    | mk rc => rw [hfold] at h; simp_all
  · intro n
    have h := disconnect_agg_foldl (List.replicate n (⟨0⟩ : PoolTgtDisconnectOut)) 0
    simp at h
    cases hfold : (List.replicate n (⟨0⟩ : PoolTgtDisconnectOut)).foldl
        (fun res src => ds_pool_tgt_disconnect_aggregator src res) ⟨0⟩ with
    | mk rc => rw [hfold] at h; simp_all
  · intro n
    have h := update_map_agg_foldl (List.replicate n (⟨0⟩ : PoolTgtUpdateMapOut)) 0
    simp at h
    cases hfold : (List.replicate n (⟨0⟩ : PoolTgtUpdateMapOut)).foldl
        (fun res src => ds_pool_tgt_update_map_aggregator src res) ⟨0⟩ with
    | mk rc => rw [hfold] at h; simp_all

/-- C4: whenever a stage of pool_alloc_ref fails, the resources acquired so
far are released in exact reverse order of acquisition, nothing acquired is
left unreleased, and all releases happen after all acquisitions; the staged
error is returned. -/
theorem pool_alloc_ref_unwinds (orc : AllocRefOracle) (key : Uuid)
    (a : PoolCreateArg) (streams : List (List DsPoolChild)) (e : Rc)
    (hwf : a.pca_create_group = true → a.pca_map_buf = true)
    (herr : (pool_alloc_ref orc key (some a) streams).1 = .error e) :
    releases (pool_alloc_ref orc key (some a) streams).2.2
        = (acquires (pool_alloc_ref orc key (some a) streams).2.2).reverse ∧
    (pool_alloc_ref orc key (some a) streams).2.2
        = (acquires (pool_alloc_ref orc key (some a) streams).2.2).map
            AllocEvent.acq
          ++ (releases (pool_alloc_ref orc key (some a) streams).2.2).map
            AllocEvent.rel := by
  obtain ⟨aOk, lOk, mOk, gOk⟩ := orc
  obtain ⟨mb, mv, cg⟩ := a
  cases aOk <;> cases lOk <;> cases mOk <;> cases gOk <;> cases mb <;> cases cg <;>
    simp_all [pool_alloc_ref, acquires, releases]

/-- C10: each of the three handlers replies with a failure count of exactly 0
or exactly 1, whatever the internal error was, and folding any number of such
binary per-node replies through an aggregator stays at most the number of
replies. -/
theorem replies_zero_or_one :
    (∀ (orc : ConnectOracle) (s : SrvState) (i : PoolTgtConnectIn),
      (ds_pool_tgt_connect_handler orc s i).1 = 0 ∨
      (ds_pool_tgt_connect_handler orc s i).1 = 1) ∧
    (∀ (s : SrvState) (i : PoolTgtDisconnectIn),
      (ds_pool_tgt_disconnect_handler s i).1 = 0 ∨
      (ds_pool_tgt_disconnect_handler s i).1 = 1) ∧
    (∀ (s : SrvState) (i : PoolTgtUpdateMapIn)
        (r : Nat × SrvState × List UmEvent),
      ds_pool_tgt_update_map_handler s i = some r → r.1 = 0 ∨ r.1 = 1) ∧
    (∀ l : List PoolTgtConnectOut, (∀ x ∈ l, x.tco_rc ≤ 1) →
      (l.foldl (fun res src => ds_pool_tgt_connect_aggregator src res)
        ⟨0⟩).tco_rc ≤ l.length) ∧
    (∀ l : List PoolTgtDisconnectOut, (∀ x ∈ l, x.tdo_rc ≤ 1) →
      (l.foldl (fun res src => ds_pool_tgt_disconnect_aggregator src res)
        ⟨0⟩).tdo_rc ≤ l.length) ∧
    (∀ l : List PoolTgtUpdateMapOut, (∀ x ∈ l, x.tuo_rc ≤ 1) →
      (l.foldl (fun res src => ds_pool_tgt_update_map_aggregator src res)
        ⟨0⟩).tuo_rc ≤ l.length) := by
  refine ⟨?_, ?_, ?_, ?_, ?_, ?_⟩
  · intro orc s i
    exact rcToReply_cases (connect_internal orc s i).1
  · intro s i
    exact rcToReply_cases (disconnect_internal s i).1
  · intro s i r hr
    obtain ⟨r₀, hr₀, hmap⟩ := Option.map_eq_some'.mp hr
    have : r.1 = rcToReply r₀.1 := by rw [← hmap]
    rw [this]
    exact rcToReply_cases r₀.1
  · intro l h
    rw [connect_agg_foldl]
    simp only [Nat.zero_add]
    calc (l.map PoolTgtConnectOut.tco_rc).sum
        ≤ (l.map PoolTgtConnectOut.tco_rc).length := by
          refine sum_le_length _ ?_
          intro x hx
          obtain ⟨y, hy, hxy⟩ := List.mem_map.mp hx
          exact hxy ▸ h y hy
      _ = l.length := List.length_map _ _
  · intro l h
    rw [disconnect_agg_foldl]
    simp only [Nat.zero_add]
    calc (l.map PoolTgtDisconnectOut.tdo_rc).sum
        ≤ (l.map PoolTgtDisconnectOut.tdo_rc).length := by
          refine sum_le_length _ ?_
          intro x hx
          obtain ⟨y, hy, hxy⟩ := List.mem_map.mp hx
          exact hxy ▸ h y hy
      _ = l.length := List.length_map _ _
  · intro l h
    rw [update_map_agg_foldl]
    simp only [Nat.zero_add]
    calc (l.map PoolTgtUpdateMapOut.tuo_rc).sum
        ≤ (l.map PoolTgtUpdateMapOut.tuo_rc).length := by
          refine sum_le_length _ ?_
          intro x hx
          obtain ⟨y, hy, hxy⟩ := List.mem_map.mp hx
          exact hxy ▸ h y hy
      _ = l.length := List.length_map _ _

/-! Concrete states and inputs used by the witness theorems. -/

/-- Sample handle table entry: handle 7, mask 3, referencing pool 5. -/
def wHdl : DsPoolHdl :=
  { sph_uuid := 7, sph_capas := 3, sph_pool := 5, sph_ref := 1 }

/-- Sample pool cache entry for pool 5 at version 2. -/
def wPool : DsPool :=
  { sp_uuid := 5, sp_map_version := 2, sp_has_map := false,
    sp_has_group := false, sp_ref := 1 }

/-- Sample state: one handle, one pool, two streams each holding a child
registry entry for pool 5. -/
def wState : SrvState :=
  { pool_hdl_hash := [wHdl], pool_cache := [wPool],
    streams := [[{ spc_uuid := 5, spc_map_version := 2, spc_ref := 1 }],
                [{ spc_uuid := 5, spc_map_version := 2, spc_ref := 1 }]],
    orphans := [] }

/-- Sample state with no pool in the cache. -/
def wEmptyState : SrvState :=
  { pool_hdl_hash := [], pool_cache := [], streams := [[], []], orphans := [] }

/-- Sample state whose pool exists but whose single stream lacks a registry
entry for it. -/
def wStateMissing : SrvState :=
  { pool_hdl_hash := [], pool_cache := [wPool], streams := [[]], orphans := [] }

/-- Oracle in which every allocation and collaborator call succeeds. -/
def wOracle : ConnectOracle :=
  { hdlAllocOk := true,
    poolOracle := { allocOk := true, lockOk := true, mapOk := true,
                    groupOk := true } }

/-- Connect request for pool 5, handle 7, mask 3. -/
def wConnectIn : PoolTgtConnectIn :=
  { tci_uuid := 5, tci_hdl := 7, tci_capas := 3, tci_map_version := 2 }

/-- Connect request for pool 9 reusing handle 7 with the same mask. -/
def wConnectIn9 : PoolTgtConnectIn :=
  { tci_uuid := 9, tci_hdl := 7, tci_capas := 3, tci_map_version := 2 }

/-- Connect request reusing handle 7 with a different mask. -/
def wConnectInBad : PoolTgtConnectIn :=
  { tci_uuid := 5, tci_hdl := 7, tci_capas := 4, tci_map_version := 2 }

/-- Disconnect request naming the unknown handle 9. -/
def wDiscIn : PoolTgtDisconnectIn :=
  { tdi_uuid := 5, tdi_hdls_arrays := some [9], tdi_hdls_count := 1 }

/-- Disconnect request with a NULL array and nonzero declared count. -/
def wDiscInNull : PoolTgtDisconnectIn :=
  { tdi_uuid := 5, tdi_hdls_arrays := none, tdi_hdls_count := 1 }

/-- Disconnect request with declared count zero. -/
def wDiscInEmpty : PoolTgtDisconnectIn :=
  { tdi_uuid := 5, tdi_hdls_arrays := none, tdi_hdls_count := 0 }

/-- Update-map request moving pool 5 to version 9. -/
def wUpdateIn : PoolTgtUpdateMapIn := { tui_uuid := 5, tui_map_version := 9 }

/-- Oracle failing exactly at group creation. -/
def wFailOracle : AllocRefOracle :=
  { allocOk := true, lockOk := true, mapOk := true, groupOk := false }

/-- Creation argument with a map buffer and group creation requested. -/
def wCreateArg : PoolCreateArg :=
  { pca_map_buf := true, pca_map_version := 3, pca_create_group := true }

/-! Witness theorems, one per claim theorem with hypotheses. -/

/-- Witness for C1 at handle 7, mask 3 of the sample state. -/
theorem connect_existing_same_capas_witness :
    ds_pool_tgt_connect_handler wOracle wState wConnectIn = (0, wState) ∧
    ds_pool_tgt_connect_handler wOracle
        (ds_pool_tgt_connect_handler wOracle wState wConnectIn).2 wConnectIn
      = (0, (ds_pool_tgt_connect_handler wOracle wState wConnectIn).2) :=
  ⟨(connect_existing_same_capas wOracle wOracle wState wState wConnectIn wHdl
      (by decide) (by decide)).1,
   (connect_existing_same_capas wOracle wOracle wState wState wConnectIn wHdl
      (by decide) (by decide)).2 (by decide)⟩

/-- Witness for C2 at handle 7 with mismatched mask 4. -/
theorem connect_conflict_witness :
    connect_internal wOracle wState wConnectInBad = (Rc.exist, wState) ∧
    ds_pool_tgt_connect_handler wOracle wState wConnectInBad = (1, wState) :=
  connect_conflict wOracle wState wConnectInBad wHdl (by decide) (by decide)

/-- Witness for C9: reconnecting handle 7 naming pool 9 instead of pool 5. -/
theorem connect_ignores_pool_id_witness :
    ds_pool_tgt_connect_handler wOracle wState wConnectIn9
      = ds_pool_tgt_connect_handler wOracle wState wConnectIn ∧
    ds_pool_tgt_connect_handler wOracle wState wConnectIn9 = (0, wState) :=
  ⟨(connect_ignores_pool_id wOracle wState wConnectIn9 wConnectIn wHdl
      (by decide) (by decide) (by decide)).1,
   (connect_ignores_pool_id wOracle wState wConnectIn9 wConnectIn wHdl
      (by decide) (by decide) (by decide)).2 (by decide) (by decide)⟩

/-- Witness for C7: disconnecting the unknown handle 9. -/
theorem disconnect_unknown_skipped_witness :
    disconnect_one wState 9 = wState ∧
    (ds_pool_tgt_disconnect_handler wState wDiscIn).1 = 0 :=
  disconnect_unknown_skipped wState wDiscIn [9] 9 (by decide) (by decide)

/-- Witness for C8 at the NULL-array and zero-count requests. -/
theorem disconnect_null_vs_empty_witness :
    (disconnect_internal wState wDiscInNull = (Rc.inval, wState) ∧
     ds_pool_tgt_disconnect_handler wState wDiscInNull = (1, wState)) ∧
    ds_pool_tgt_disconnect_handler wState wDiscInEmpty = (0, wState) :=
  ⟨(disconnect_null_vs_empty wState wDiscInNull).1 (by decide) (by decide),
   (disconnect_null_vs_empty wState wDiscInEmpty).2 (by decide)⟩

/-- Witness for C5 at the empty cache. -/
theorem update_map_no_pool_witness :
    ds_pool_tgt_update_map_internal wEmptyState wUpdateIn
      = some (Rc.nonexist, wEmptyState, []) ∧
    ds_pool_tgt_update_map_handler wEmptyState wUpdateIn
      = some (1, wEmptyState, []) :=
  update_map_no_pool wEmptyState wUpdateIn (by decide)

/-- Witness for C6 at the sample state and at the state whose stream lacks a
registry entry. -/
theorem update_map_existing_pool_witness :
    (∃ r, ds_pool_tgt_update_map_handler wState wUpdateIn = some r ∧
      r.1 = 0 ∧
      r.2.2 = [UmEvent.evCollective, UmEvent.evWrlock, UmEvent.evSetVersion,
        UmEvent.evUnlock] ∧
      (∀ reg ∈ r.2.1.streams,
        (childFind reg wUpdateIn.tui_uuid).map DsPoolChild.spc_map_version
          = some wUpdateIn.tui_map_version) ∧
      (cacheFind r.2.1.pool_cache wUpdateIn.tui_uuid).map DsPool.sp_map_version
        = some wUpdateIn.tui_map_version ∧
      r.2.1.pool_hdl_hash = wState.pool_hdl_hash) ∧
    ds_pool_tgt_update_map_handler wStateMissing wUpdateIn = none :=
  ⟨(update_map_existing_pool wState wUpdateIn wPool (by decide)).1 (by decide),
   (update_map_existing_pool wStateMissing wUpdateIn wPool (by decide)).2
     ⟨[], by simp [wStateMissing], by decide⟩⟩

/-- Witness for C4 at a group-creation failure with map and group requested. -/
theorem pool_alloc_ref_unwinds_witness :
    releases (pool_alloc_ref wFailOracle 5 (some wCreateArg) [[]]).2.2
      = (acquires (pool_alloc_ref wFailOracle 5 (some wCreateArg) [[]]).2.2).reverse ∧
    (pool_alloc_ref wFailOracle 5 (some wCreateArg) [[]]).2.2
      = (acquires (pool_alloc_ref wFailOracle 5 (some wCreateArg) [[]]).2.2).map
          AllocEvent.acq
        ++ (releases (pool_alloc_ref wFailOracle 5 (some wCreateArg) [[]]).2.2).map
          AllocEvent.rel :=
  pool_alloc_ref_unwinds wFailOracle 5 wCreateArg [[]] Rc.grouperr
    (by decide) (by rfl)

/-- Witness for C10: the aborting-free update reply at the empty state and the
aggregator folds on small concrete reply lists. -/
theorem replies_zero_or_one_witness :
    ((1 : Nat) = 0 ∨ (1 : Nat) = 1) ∧
    ((([⟨1⟩, ⟨0⟩] : List PoolTgtConnectOut).foldl
        (fun res src => ds_pool_tgt_connect_aggregator src res) ⟨0⟩).tco_rc ≤ 2) ∧
    ((([⟨1⟩] : List PoolTgtDisconnectOut).foldl
        (fun res src => ds_pool_tgt_disconnect_aggregator src res) ⟨0⟩).tdo_rc ≤ 1) ∧
    ((([⟨0⟩] : List PoolTgtUpdateMapOut).foldl
        (fun res src => ds_pool_tgt_update_map_aggregator src res) ⟨0⟩).tuo_rc ≤ 1) :=
  ⟨replies_zero_or_one.2.2.1 wEmptyState wUpdateIn (1, wEmptyState, [])
      (by decide),
   replies_zero_or_one.2.2.2.1 [⟨1⟩, ⟨0⟩] (by decide),
   replies_zero_or_one.2.2.2.2.1 [⟨1⟩] (by decide),
   replies_zero_or_one.2.2.2.2.2 [⟨0⟩] (by decide)⟩
